import Mathlib

/-!
Shallow embedding of the blogicum blog application's visibility, ownership
and pagination logic (src/blogicum/blog/views.py and urls.py), together
with theorems settling the spec's claims about it.

Modelling conventions:
* usernames and category slugs are strings, entity ids are naturals;
* timestamps are naturals counted in minutes, with 1440 minutes per day,
  so that the source's `pub_date__date` (truncation of a timestamp to its
  calendar date) is division by 1440;
* the viewer / acting identity is `Option Username`, `none` being Django's
  `AnonymousUser` (which compares unequal to every stored `User`);
* the database is an explicit record of lists; each handler is a pure
  function from the database (plus request data) to a result, mutating
  handlers return the new database paired with the response.
-/

namespace Blogicum

abbrev Username := String
abbrev Slug := String
abbrev PostId := Nat

/-- Minutes per day: `dateOf` models the SQL `DATE()` truncation used by the
`pub_date__date__lt` lookup of `post_queryset`. -/
def minutesPerDay : Nat := 1440

def dateOf (t : Nat) : Nat := t / minutesPerDay

/-- `Category` row: unique slug plus the `is_published` flag. -/
structure Category where
  slug : Slug
  is_published : Bool
deriving DecidableEq, Repr

/-- `Post` row: author and category are foreign keys (by username / slug). -/
structure Post where
  id : PostId
  author : Username
  category : Slug
  pub_date : Nat
  is_published : Bool
  title : String
  text : String
deriving DecidableEq, Repr

/-- `Comment` row: foreign keys to its post and its author. -/
structure Comment where
  id : Nat
  post : PostId
  author : Username
  text : String
deriving DecidableEq, Repr

/-- The relational store: users, categories, posts, comments. -/
structure DB where
  users : List Username
  categories : List Category
  posts : List Post
  comments : List Comment
deriving DecidableEq, Repr

def DB.findPost (db : DB) (pid : PostId) : Option Post :=
  db.posts.find? (fun p => p.id == pid)

def DB.findCategory (db : DB) (slug : Slug) : Option Category :=
  db.categories.find? (fun c => c.slug == slug)

/-- The join `category__is_published` used in the post filters: the
published flag of the post's category (false if the slug dangles, which a
well-formed store never has). -/
def categoryPublished (db : DB) (slug : Slug) : Bool :=
  match db.findCategory slug with
  | some c => c.is_published
  | none => false

/-- `post.comments` (reverse foreign key): all comments attached to a post. -/
def commentsFor (db : DB) (pid : PostId) : List Comment :=
  db.comments.filter (fun c => c.post == pid)

/-! ### Ordering: `order_by('-pub_date')` as insertion sort, descending. -/

def insertDesc (p : Post) : List Post → List Post
  | [] => [p]
  | q :: qs => if q.pub_date < p.pub_date then p :: q :: qs else q :: insertDesc p qs

def sortDesc : List Post → List Post
  | [] => []
  | p :: ps => insertDesc p (sortDesc ps)

theorem mem_insertDesc {a p : Post} {l : List Post} :
    a ∈ insertDesc p l ↔ a = p ∨ a ∈ l := by
  induction l with
  | nil => simp [insertDesc]
  | cons q qs ih =>
    by_cases h : q.pub_date < p.pub_date
    · simp [insertDesc, h]
    · simp [insertDesc, h, ih]
      tauto

theorem mem_sortDesc {a : Post} {l : List Post} :
    a ∈ sortDesc l ↔ a ∈ l := by
  induction l with
  | nil => simp [sortDesc]
  | cons p ps ih => simp [sortDesc, mem_insertDesc, ih]

theorem pairwise_insertDesc {p : Post} {l : List Post}
    (hl : l.Pairwise (fun a b => b.pub_date ≤ a.pub_date)) :
    (insertDesc p l).Pairwise (fun a b => b.pub_date ≤ a.pub_date) := by
  induction l with
  | nil => simp [insertDesc]
  | cons q qs ih =>
    rcases List.pairwise_cons.mp hl with ⟨hq, hqs⟩
    by_cases h : q.pub_date < p.pub_date
    · simp only [insertDesc, if_pos h]
      refine List.pairwise_cons.mpr ⟨?_, hl⟩
      intro b hb
      rcases List.mem_cons.mp hb with rfl | hb
      · exact Nat.le_of_lt h
      · exact Nat.le_trans (hq _ hb) (Nat.le_of_lt h)
    · simp only [insertDesc, if_neg h]
      refine List.pairwise_cons.mpr ⟨?_, ih hqs⟩
      intro b hb
      rcases mem_insertDesc.mp hb with rfl | hb
      · exact Nat.le_of_not_lt h
      · exact hq _ hb

theorem pairwise_sortDesc (l : List Post) :
    (sortDesc l).Pairwise (fun a b => b.pub_date ≤ a.pub_date) := by
  induction l with
  | nil => simp [sortDesc]
  | cons p ps ih => exact pairwise_insertDesc ih

/-! ### Pagination (`django.core.paginator.Paginator` and `ListView`). -/

/-- `PAGINATOR_VALUE` of views.py; also `PostListView.paginate_by`. -/
def PAGINATOR_VALUE : Nat := 10

/-- The `page` GET parameter as the handlers see it: absent, the literal
string `last`, some other non-integer string, or an integer. -/
inductive PageParam where
  | missing
  | lastStr
  | notAnInt
  | num (k : Int)
deriving DecidableEq, Repr

/-- `Paginator.num_pages` with the default `allow_empty_first_page=True`
and `orphans=0`: `ceil(max 1 count / per_page)`. -/
def num_pages (count per_page : Nat) : Nat :=
  (max 1 count + per_page - 1) / per_page

/-- `Paginator.get_page`: a non-integer parameter (including an absent one
and the string `last`) falls back to page 1; an integer below 1 or above
`num_pages` falls back to the LAST page. Returns the resolved page number. -/
def get_page (count per_page : Nat) (req : PageParam) : Nat :=
  match req with
  | .missing => 1
  | .lastStr => 1
  | .notAnInt => 1
  | .num k =>
      if k < 1 then num_pages count per_page
      else if (num_pages count per_page : Int) < k then num_pages count per_page
      else k.toNat

/-- `MultipleObjectMixin.paginate_queryset` as `PostListView` uses it: an
absent parameter means page 1, `last` means the last page, any other
non-integer raises `Http404`, and an integer out of `[1, num_pages]`
raises `Http404` via `Paginator.page`. -/
def paginate_queryset (count per_page : Nat) (req : PageParam) : Except Unit Nat :=
  match req with
  | .missing => .ok 1
  | .lastStr => .ok (num_pages count per_page)
  | .notAnInt => .error ()
  | .num k =>
      if k < 1 then .error ()
      else if (num_pages count per_page : Int) < k then .error ()
      else .ok k.toNat

/-- `Page.object_list`: the slice `[(n-1)*per_page, n*per_page)` of the
ordered queryset. -/
def page_slice (l : List Post) (per_page n : Nat) : List Post :=
  (l.drop ((n - 1) * per_page)).take per_page

theorem num_pages_pos (count per_page : Nat) (hper : 0 < per_page) :
    1 ≤ num_pages count per_page := by
  unfold num_pages
  have h1 : 1 ≤ max 1 count := le_max_left _ _
  have : per_page ≤ max 1 count + per_page - 1 := by omega
  exact Nat.le_div_iff_mul_le hper |>.mpr (by omega)

theorem page_slice_subset {l : List Post} {per_page n : Nat} {p : Post}
    (hp : p ∈ page_slice l per_page n) : p ∈ l := by
  unfold page_slice at hp
  exact List.mem_of_mem_drop (List.mem_of_mem_take hp)

theorem page_slice_length_le (l : List Post) (per_page n : Nat) :
    (page_slice l per_page n).length ≤ per_page := by
  unfold page_slice
  simp [List.length_take]

/-! ### Querysets of the three listing contexts. -/

/-- `post_queryset()` of views.py: the prefetch queryset of the category
page.  Note the date lookup `pub_date__date__lt=datetime.datetime.now()`:
Django's `DateField.get_prep_value` truncates the datetime argument to a
date, so the filter compares calendar dates strictly. -/
def post_queryset (db : DB) (now : Nat) : List Post :=
  sortDesc (db.posts.filter (fun p =>
    p.is_published && dateOf p.pub_date < dateOf now &&
    categoryPublished db p.category))

/-- `PostListView.queryset`: `is_published=True`,
`category__is_published=True`, `pub_date__lte=timezone.now()`, ordered by
`-pub_date`.  It does not depend on the viewer. -/
def index_queryset (db : DB) (now : Nat) : List Post :=
  sortDesc (db.posts.filter (fun p =>
    p.is_published && categoryPublished db p.category && p.pub_date ≤ now))

/-- The posts the category page paginates: `category.posts.all().filter(
category__slug=category_slug)`, i.e. `post_queryset` restricted to the
category. -/
def category_queryset (db : DB) (now : Nat) (slug : Slug) : List Post :=
  (post_queryset db now).filter (fun p => p.category == slug)

/-- The posts `profile_detail` paginates: all posts of the named author,
ordered by `-pub_date`; unless the viewer IS that author, filtered by
`is_published=True, pub_date__lte=timezone.now()` (no category condition). -/
def profile_queryset (db : DB) (now : Nat) (viewer : Option Username)
    (uname : Username) : List Post :=
  let base := sortDesc (db.posts.filter (fun p => p.author == uname))
  if viewer = some uname then base
  else base.filter (fun p => p.is_published && p.pub_date ≤ now)

/-! ### Listing handlers. -/

/-- `PostListView` (`blog:index`): paginated public queryset; an invalid
page raises `Http404` (modelled as `.error ()`). The view takes no viewer. -/
def list_index (db : DB) (now : Nat) (req : PageParam) :
    Except Unit (List Post × Nat) :=
  let qs := index_queryset db now
  match paginate_queryset qs.length PAGINATOR_VALUE req with
  | .error _ => .error ()
  | .ok n => .ok (page_slice qs PAGINATOR_VALUE n, n)

/-- Result of the category page. -/
inductive CatResult where
  | authRequired
  | notFound
  | ok (cat : Category) (page : List Post) (pageNum : Nat)
deriving DecidableEq, Repr

/-- `category_posts`: decorated with `@login_required`; looks up the
category by slug with `is_published=True` via `get_object_or_404`; pages
the category's filtered posts with `Paginator.get_page`. -/
def category_posts (db : DB) (now : Nat) (viewer : Option Username)
    (slug : Slug) (req : PageParam) : CatResult :=
  match viewer with
  | none => .authRequired
  | some _ =>
    match db.findCategory slug with
    | none => .notFound
    | some cat =>
      if cat.is_published then
        let qs := category_queryset db now slug
        let n := get_page qs.length PAGINATOR_VALUE req
        .ok cat (page_slice qs PAGINATOR_VALUE n) n
      else .notFound

/-- Result of the profile page. -/
inductive ProfileResult where
  | notFound
  | ok (page : List Post) (pageNum : Nat)
deriving DecidableEq, Repr

/-- `profile_detail`: `get_object_or_404(User, username=username)`, then
the profile queryset paged with `Paginator.get_page`.  Not login-guarded. -/
def profile_detail (db : DB) (now : Nat) (viewer : Option Username)
    (uname : Username) (req : PageParam) : ProfileResult :=
  if uname ∈ db.users then
    let qs := profile_queryset db now viewer uname
    let n := get_page qs.length PAGINATOR_VALUE req
    .ok (page_slice qs PAGINATOR_VALUE n) n
  else .notFound

/-! ### Single post detail. -/

/-- Result of `PostDetailView`. -/
inductive DetailResult where
  | notFound
  | ok (p : Post) (comments : List Comment)
deriving DecidableEq, Repr

/-- `PostDetailView.dispatch`: 404 when the id is unknown; 404 when the
viewer is not the author and the post is unpublished, its category is
unpublished, or it is future-dated; otherwise the post with its comments. -/
def get_post_detail (db : DB) (now : Nat) (viewer : Option Username)
    (pid : PostId) : DetailResult :=
  match db.findPost pid with
  | none => .notFound
  | some p =>
    if viewer ≠ some p.author ∧
        (p.is_published = false ∨ categoryPublished db p.category = false ∨
         now < p.pub_date)
    then .notFound
    else .ok p (commentsFor db pid)

/-! ### CRUD handlers. -/

/-- Where a response redirects. -/
inductive Redirect where
  | postDetail (pid : PostId)
  | profile (u : Username)
  | index
deriving DecidableEq, Repr

/-- Response of a mutating handler. -/
inductive Response where
  | notFound
  | authRequired
  | redirect (r : Redirect)
deriving DecidableEq, Repr

/-- Bound form data for a post; the `author` field models a client-supplied
author attempt, which the views overwrite in `form_valid`. -/
structure PostFields where
  author : Username
  title : String
  text : String
  category : Slug
  pub_date : Nat
  is_published : Bool
deriving DecidableEq, Repr

/-- Bound form data for a comment. -/
structure CommentFields where
  author : Username
  text : String
deriving DecidableEq, Repr

/-- Applying a valid `PostForm` to an instance, with
`form.instance.author = request.user` forced (the client `author` field is
discarded). -/
def apply_post_form (p : Post) (f : PostFields) (actor : Username) : Post :=
  { p with author := actor, title := f.title, text := f.text,
           category := f.category, pub_date := f.pub_date,
           is_published := f.is_published }

/-- Autoincrement id for a new post. -/
def freshPostId (db : DB) : PostId :=
  (db.posts.map (fun p => p.id)).foldr max 0 + 1

/-- Autoincrement id for a new comment. -/
def freshCommentId (db : DB) : Nat :=
  (db.comments.map (fun c => c.id)).foldr max 0 + 1

/-- `PostCreateView`: `LoginRequiredMixin` rejects anonymous actors; the
author is forced to the acting user; `get_success_url` is the acting
user's PROFILE page. -/
def create_post (db : DB) (viewer : Option Username) (f : PostFields) :
    DB × Response :=
  match viewer with
  | none => (db, .authRequired)
  | some u =>
    let p : Post := { id := freshPostId db, author := u, category := f.category,
                      pub_date := f.pub_date, is_published := f.is_published,
                      title := f.title, text := f.text }
    ({ db with posts := db.posts ++ [p] }, .redirect (.profile u))

/-- `PostUpdateView.dispatch`: `get_object_or_404(Post, pk=pk)` first, then
the author check (an anonymous actor, like any non-author, is redirected to
the post's detail page — the overridden `dispatch` runs BEFORE
`LoginRequiredMixin`); on success `get_success_url` is the post's detail
page. -/
def update_post (db : DB) (viewer : Option Username) (pid : PostId)
    (f : PostFields) : DB × Response :=
  match db.findPost pid with
  | none => (db, .notFound)
  | some p =>
    if viewer = some p.author then
      ({ db with posts := db.posts.map (fun q =>
           if q.id = pid then apply_post_form q f p.author else q) },
       .redirect (.postDetail pid))
    else (db, .redirect (.postDetail pid))

/-- `PostDeleteView.dispatch`: same guard ordering as `PostUpdateView`; on
success `success_url = reverse_lazy('blog:index')`. -/
def delete_post (db : DB) (viewer : Option Username) (pid : PostId) :
    DB × Response :=
  match db.findPost pid with
  | none => (db, .notFound)
  | some p =>
    if viewer = some p.author then
      ({ db with posts := db.posts.filter (fun q => q.id ≠ pid) },
       .redirect .index)
    else (db, .redirect (.postDetail pid))

/-- `CommentCreateView`: `dispatch` resolves the post with
`get_object_or_404` (no visibility check) before `LoginRequiredMixin`
rejects anonymous actors; the comment's author is forced to the acting user
and it is attached to the post; success redirects to the post's detail. -/
def create_comment (db : DB) (viewer : Option Username) (pid : PostId)
    (cf : CommentFields) : DB × Response :=
  match db.findPost pid with
  | none => (db, .notFound)
  | some _ =>
    match viewer with
    | none => (db, .authRequired)
    | some u =>
      let c : Comment := { id := freshCommentId db, post := pid,
                           author := u, text := cf.text }
      ({ db with comments := db.comments ++ [c] }, .redirect (.postDetail pid))

/-! ### Helper lemmas. -/

/-- Negation of the `PostDetailView.dispatch` 404 guard is exactly the
spec's visibility condition. -/
theorem visibility_guard_iff (db : DB) (now : Nat) (viewer : Option Username)
    (p : Post) :
    ¬(viewer ≠ some p.author ∧
        (p.is_published = false ∨ categoryPublished db p.category = false ∨
         now < p.pub_date)) ↔
      (viewer = some p.author ∨
        (p.is_published = true ∧ categoryPublished db p.category = true ∧
         p.pub_date ≤ now)) := by
  simp only [not_and, not_or, Bool.not_eq_false, Nat.not_lt, ne_eq, not_not]
  by_cases h : viewer = some p.author
  · simp [h]
  · simp [h]

theorem get_page_out_of_range (count : Nat) {k : Int}
    (h : k < 1 ∨ (num_pages count PAGINATOR_VALUE : Int) < k) :
    get_page count PAGINATOR_VALUE (.num k) =
      num_pages count PAGINATOR_VALUE := by
  unfold get_page
  rcases h with h | h
  · simp [h]
  · have h1 : ¬k < 1 := by omega
    simp [h1, h]

theorem get_page_last (count : Nat) :
    get_page count PAGINATOR_VALUE
        (.num (num_pages count PAGINATOR_VALUE)) =
      num_pages count PAGINATOR_VALUE := by
  have hpos : 1 ≤ num_pages count PAGINATOR_VALUE :=
    num_pages_pos count PAGINATOR_VALUE (by decide)
  unfold get_page
  have h1 : ¬(num_pages count PAGINATOR_VALUE : Int) < 1 := by
    exact_mod_cast Nat.not_lt.mpr hpos
  simp [h1]

theorem paginate_queryset_out_of_range (count : Nat) {k : Int}
    (h : k < 1 ∨ (num_pages count PAGINATOR_VALUE : Int) < k) :
    paginate_queryset count PAGINATOR_VALUE (.num k) = .error () := by
  unfold paginate_queryset
  rcases h with h | h
  · simp [h]
  · have h1 : ¬k < 1 := by omega
    simp [h1, h]

/-- Every page the index view returns draws from its queryset. -/
theorem list_index_page_subset {db : DB} {now : Nat} {req : PageParam}
    {pg : List Post} {n : Nat} (h : list_index db now req = .ok (pg, n)) :
    ∀ p ∈ pg, p ∈ index_queryset db now := by
  unfold list_index at h
  dsimp only at h
  split at h
  · simp at h
  · simp only [Except.ok.injEq, Prod.mk.injEq] at h
    obtain ⟨rfl, rfl⟩ := h
    exact fun p hp => page_slice_subset hp

/-- Every page the category view returns draws from the category queryset. -/
theorem category_posts_page_subset {db : DB} {now : Nat}
    {viewer : Option Username} {slug : Slug} {req : PageParam}
    {cat : Category} {pg : List Post} {n : Nat}
    (h : category_posts db now viewer slug req = .ok cat pg n) :
    ∀ p ∈ pg, p ∈ category_queryset db now slug := by
  unfold category_posts at h
  split at h
  · simp at h
  · split at h
    · simp at h
    · split at h
      · simp only [CatResult.ok.injEq] at h
        obtain ⟨-, rfl, rfl⟩ := h
        exact fun p hp => page_slice_subset hp
      · simp at h

/-- Every page the profile view returns draws from the profile queryset. -/
theorem profile_detail_page_subset {db : DB} {now : Nat}
    {viewer : Option Username} {uname : Username} {req : PageParam}
    {pg : List Post} {n : Nat}
    (h : profile_detail db now viewer uname req = .ok pg n) :
    ∀ p ∈ pg, p ∈ profile_queryset db now viewer uname := by
  unfold profile_detail at h
  split at h
  · simp only [ProfileResult.ok.injEq] at h
    obtain ⟨rfl, rfl⟩ := h
    exact fun p hp => page_slice_subset hp
  · simp at h

/-- Membership in the index queryset (viewer-independent). -/
theorem mem_index_queryset {db : DB} {now : Nat} {p : Post} :
    p ∈ index_queryset db now ↔
      p ∈ db.posts ∧ p.is_published = true ∧
      categoryPublished db p.category = true ∧ p.pub_date ≤ now := by
  unfold index_queryset
  rw [mem_sortDesc, List.mem_filter]
  simp only [Bool.and_eq_true, decide_eq_true_eq]
  tauto

/-- Membership in the category page's queryset: the date cutoff is by
calendar date, strictly. -/
theorem mem_category_queryset {db : DB} {now : Nat} {slug : Slug} {p : Post} :
    p ∈ category_queryset db now slug ↔
      p ∈ db.posts ∧ p.category = slug ∧ p.is_published = true ∧
      categoryPublished db slug = true ∧ dateOf p.pub_date < dateOf now := by
  unfold category_queryset post_queryset
  rw [List.mem_filter, mem_sortDesc, List.mem_filter]
  simp only [Bool.and_eq_true, decide_eq_true_eq, beq_iff_eq]
  constructor
  · rintro ⟨⟨hp, ⟨hpub, hdate⟩, hcat⟩, hslug⟩
    exact ⟨hp, hslug, hpub, hslug ▸ hcat, hdate⟩
  · rintro ⟨hp, hslug, hpub, hcat, hdate⟩
    exact ⟨⟨hp, ⟨hpub, hdate⟩, hslug ▸ hcat⟩, hslug⟩

/-- Membership in the profile queryset, owner case. -/
theorem mem_profile_queryset_owner {db : DB} {now : Nat} {uname : Username}
    {p : Post} :
    p ∈ profile_queryset db now (some uname) uname ↔
      p ∈ db.posts ∧ p.author = uname := by
  unfold profile_queryset
  rw [if_pos rfl, mem_sortDesc, List.mem_filter]
  simp

/-- Membership in the profile queryset, non-owner case: published and
past-dated, with no category condition. -/
theorem mem_profile_queryset_other {db : DB} {now : Nat}
    {viewer : Option Username} {uname : Username} {p : Post}
    (h : viewer ≠ some uname) :
    p ∈ profile_queryset db now viewer uname ↔
      p ∈ db.posts ∧ p.author = uname ∧ p.is_published = true ∧
      p.pub_date ≤ now := by
  unfold profile_queryset
  rw [if_neg h, List.mem_filter, mem_sortDesc, List.mem_filter]
  simp only [Bool.and_eq_true, decide_eq_true_eq, beq_iff_eq]
  tauto

/-- Decidable equality on `Except`, so that concrete results of
`list_index` can be checked by `decide`. -/
instance {ε α : Type} [DecidableEq ε] [DecidableEq α] :
    DecidableEq (Except ε α) := fun a b =>
  match a, b with
  | .error e, .error f =>
    if h : e = f then .isTrue (by rw [h]) else .isFalse (by simp [h])
  | .ok x, .ok y =>
    if h : x = y then .isTrue (by rw [h]) else .isFalse (by simp [h])
  | .error _, .ok _ => .isFalse (fun hh => nomatch hh)
  | .ok _, .error _ => .isFalse (fun hh => nomatch hh)

/-! ### Concrete fixtures for witnesses and counterexamples. -/

/-- A visible post: published, published category, dated the day before
`nowA`. -/
def pA1 : Post := ⟨1, "alice", "tech", 99 * minutesPerDay + 600, true, "t1", "b1"⟩

/-- An unpublished post by alice. -/
def pA2 : Post := ⟨2, "alice", "tech", 99 * minutesPerDay + 700, false, "t2", "b2"⟩

/-- A published post in an unpublished category. -/
def pA3 : Post := ⟨3, "alice", "hidden", 98 * minutesPerDay, true, "t3", "b3"⟩

/-- A published post dated earlier on the SAME day as `nowA`: it passes
`pub_date <= now` but fails the category page's strict date cutoff. -/
def pA4 : Post := ⟨4, "alice", "tech", 100 * minutesPerDay + 100, true, "t4", "b4"⟩

def nowA : Nat := 100 * minutesPerDay + 500

def dbA : DB :=
  ⟨["alice", "bob"], [⟨"tech", true⟩, ⟨"hidden", false⟩],
   [pA1, pA2, pA3, pA4], [⟨1, 1, "bob", "hi"⟩]⟩

/-- Concrete bound post form, with a client-supplied author attempt. -/
def fA : PostFields := ⟨"mallory", "T", "B", "tech", 99 * minutesPerDay, true⟩

/-- Concrete bound comment form, with a client-supplied author attempt. -/
def cfA : CommentFields := ⟨"mallory", "nice"⟩

/-- Post `i` of the 12-post category scenario: all by alice in the
published category `news`, dated on pairwise distinct past days. -/
def mkP (i : Nat) : Post := ⟨i, "alice", "news", (90 - i) * minutesPerDay, true, "t", "x"⟩

/-- The scenario store: category `news` (published) holding exactly 12
published past-dated posts. -/
def db12 : DB :=
  ⟨["alice", "bob"], [⟨"news", true⟩],
   (List.range 12).map (fun i => mkP (i + 1)), []⟩

def now12 : Nat := 100 * minutesPerDay + 500

/-- Store whose only post has an unpublished category. -/
def db5 : DB :=
  ⟨["alice", "bob"], [⟨"c", false⟩], [⟨1, "alice", "c", 99 * minutesPerDay, true, "t", "x"⟩], []⟩

def p5 : Post := ⟨1, "alice", "c", 99 * minutesPerDay, true, "t", "x"⟩

def now5 : Nat := 100 * minutesPerDay + 500

/-- A page returned by the profile view holds at most `PAGINATOR_VALUE`
posts. -/
theorem profile_detail_page_length {db : DB} {now : Nat}
    {viewer : Option Username} {uname : Username} {req : PageParam}
    {pg : List Post} {n : Nat}
    (h : profile_detail db now viewer uname req = .ok pg n) :
    pg.length ≤ PAGINATOR_VALUE := by
  unfold profile_detail at h
  split at h
  · simp only [ProfileResult.ok.injEq] at h
    obtain ⟨rfl, rfl⟩ := h
    exact page_slice_length_le _ _ _
  · simp at h

/-- A page returned by the category view holds at most `PAGINATOR_VALUE`
posts. -/
theorem category_posts_page_length {db : DB} {now : Nat}
    {viewer : Option Username} {slug : Slug} {req : PageParam}
    {cat : Category} {pg : List Post} {n : Nat}
    (h : category_posts db now viewer slug req = .ok cat pg n) :
    pg.length ≤ PAGINATOR_VALUE := by
  unfold category_posts at h
  split at h
  · simp at h
  · split at h
    · simp at h
    · split at h
      · simp only [CatResult.ok.injEq] at h
        obtain ⟨-, rfl, rfl⟩ := h
        exact page_slice_length_le _ _ _
      · simp at h

/-- A page returned by the index view holds at most `PAGINATOR_VALUE`
posts. -/
theorem list_index_page_length {db : DB} {now : Nat} {req : PageParam}
    {pg : List Post} {n : Nat} (h : list_index db now req = .ok (pg, n)) :
    pg.length ≤ PAGINATOR_VALUE := by
  unfold list_index at h
  dsimp only at h
  split at h
  · simp at h
  · simp only [Except.ok.injEq, Prod.mk.injEq] at h
    obtain ⟨rfl, rfl⟩ := h
    exact page_slice_length_le _ _ _

/-! ### Claim theorems. -/

/-- C1: for every post p and viewer v, `get_post_detail(p.id, v)` returns p
with its comments iff v is p's author or p is published, in a published
category, and not future-dated; when the condition fails the lookup yields
the same `notFound` outcome as a non-existent id. -/
theorem claim_C1_detail_visibility (db : DB) (now : Nat)
    (viewer : Option Username) (pid : PostId) :
    (∀ p, db.findPost pid = some p →
      ((get_post_detail db now viewer pid = .ok p (commentsFor db pid)) ↔
        (viewer = some p.author ∨
          (p.is_published = true ∧ categoryPublished db p.category = true ∧
           p.pub_date ≤ now))) ∧
      (¬(viewer = some p.author ∨
          (p.is_published = true ∧ categoryPublished db p.category = true ∧
           p.pub_date ≤ now)) →
        get_post_detail db now viewer pid = .notFound)) ∧
    (db.findPost pid = none → get_post_detail db now viewer pid = .notFound) := by
  constructor
  · intro p hp
    unfold get_post_detail
    rw [hp]
    dsimp only
    by_cases hv : viewer = some p.author ∨
        (p.is_published = true ∧ categoryPublished db p.category = true ∧
         p.pub_date ≤ now)
    · rw [if_neg ((visibility_guard_iff db now viewer p).mpr hv)]
      exact ⟨⟨fun _ => hv, fun _ => rfl⟩, fun hnv => absurd hv hnv⟩
    · have hg : viewer ≠ some p.author ∧
          (p.is_published = false ∨ categoryPublished db p.category = false ∨
           now < p.pub_date) := by
        by_contra hng
        exact hv ((visibility_guard_iff db now viewer p).mp hng)
      rw [if_pos hg]
      exact ⟨Iff.intro (fun h => nomatch h) (fun h => absurd h hv), fun _ => rfl⟩
  · intro hnone
    simp [get_post_detail, hnone]

/-- C1 witness: the anonymous viewer gets post 1 of `dbA` (published, in a
published category, past-dated) together with its comments. -/
theorem claim_C1_witness :
    dbA.findPost 1 = some pA1 ∧
    get_post_detail dbA nowA none 1 = .ok pA1 (commentsFor dbA 1) :=
  ⟨by decide,
   ((claim_C1_detail_visibility dbA nowA none 1).1 pA1 (by decide)).1.mpr
     (Or.inr (by decide))⟩

/-- C2 (amended): every actor other than the post's author — authenticated
or anonymous — receives the soft redirect to the post's detail page from
`update_post` and `delete_post`, with the store unchanged; the
authentication-required signal is never produced here because the author
check of the overridden `dispatch` runs before `LoginRequiredMixin`. -/
theorem claim_C2_nonauthor_denial (db : DB) (viewer : Option Username)
    (pid : PostId) (p : Post) (f : PostFields)
    (hp : db.findPost pid = some p) (hv : viewer ≠ some p.author) :
    update_post db viewer pid f = (db, .redirect (.postDetail pid)) ∧
    delete_post db viewer pid = (db, .redirect (.postDetail pid)) := by
  refine ⟨?_, ?_⟩
  · simp only [update_post, hp]
    rw [if_neg hv]
  · simp only [delete_post, hp]
    rw [if_neg hv]

/-- C2 counterexample: the anonymous actor on post 1 gets the soft
redirect to the post's detail page, not the authentication-required
signal the claim promises for unauthenticated actors. -/
theorem claim_C2_counterexample :
    update_post dbA none 1 fA = (dbA, .redirect (.postDetail 1)) ∧
    (update_post dbA none 1 fA).2 ≠ Response.authRequired ∧
    delete_post dbA none 1 = (dbA, .redirect (.postDetail 1)) ∧
    (delete_post dbA none 1).2 ≠ Response.authRequired := by decide

/-- C2 witness: authenticated non-author bob is soft-denied on post 1 with
the store unchanged. -/
theorem claim_C2_witness :
    dbA.findPost 1 = some pA1 ∧ (some "bob" : Option Username) ≠ some pA1.author ∧
    update_post dbA (some "bob") 1 fA = (dbA, .redirect (.postDetail 1)) ∧
    delete_post dbA (some "bob") 1 = (dbA, .redirect (.postDetail 1)) :=
  ⟨by decide, by decide,
   (claim_C2_nonauthor_denial dbA (some "bob") 1 pA1 fA (by decide) (by decide)).1,
   (claim_C2_nonauthor_denial dbA (some "bob") 1 pA1 fA (by decide) (by decide)).2⟩

/-- C10: comment creation by an authenticated user checks only that the
post id exists — the visibility filter is never applied — and on success
attaches the comment (author forced to the acting user) and redirects to
the post's detail page; an unknown id yields `notFound`. -/
theorem claim_C10_comment_ignores_visibility (db : DB) (u : Username)
    (pid : PostId) (cf : CommentFields) :
    ((db.findPost pid).isSome →
      create_comment db (some u) pid cf =
        ({ db with comments :=
            db.comments ++ [⟨freshCommentId db, pid, u, cf.text⟩] },
         .redirect (.postDetail pid))) ∧
    (db.findPost pid = none →
      create_comment db (some u) pid cf = (db, .notFound)) := by
  constructor
  · intro h
    rcases hp : db.findPost pid with _ | p
    · rw [hp] at h; simp at h
    · simp [create_comment, hp]
  · intro h
    simp [create_comment, h]

/-- C3 (amended): an unpublished post appears in no page of the index and
in no page of any category listing; the category listing, however, does
NOT apply the index's `pub_date <= now` condition but a strict
calendar-date cutoff `date(pub_date) < date(now)` (with the published and
category-published conditions shared). -/
theorem claim_C3_unpublished_excluded (db : DB) (now : Nat) (slug : Slug)
    (p : Post) :
    (p.is_published = false →
      p ∉ index_queryset db now ∧ p ∉ category_queryset db now slug) ∧
    (p ∈ category_queryset db now slug ↔
      p ∈ db.posts ∧ p.category = slug ∧ p.is_published = true ∧
      categoryPublished db slug = true ∧ dateOf p.pub_date < dateOf now) ∧
    (∀ viewer req cat pg n,
      category_posts db now viewer slug req = .ok cat pg n → p ∈ pg →
        p ∈ category_queryset db now slug) ∧
    (∀ req pg n, list_index db now req = .ok (pg, n) → p ∈ pg →
      p ∈ index_queryset db now) := by
  refine ⟨?_, mem_category_queryset, ?_, ?_⟩
  · intro h
    constructor
    · intro hmem
      rcases mem_index_queryset.mp hmem with ⟨-, hpub, -, -⟩
      rw [h] at hpub
      cases hpub
    · intro hmem
      rcases mem_category_queryset.mp hmem with ⟨-, -, hpub, -, -⟩
      rw [h] at hpub
      cases hpub
  · intro viewer req cat pg n h hp
    exact category_posts_page_subset h p hp
  · intro req pg n h hp
    exact list_index_page_subset h p hp

/-- C3 witness: the unpublished post 2 of `dbA` is in neither queryset. -/
theorem claim_C3_witness :
    pA2.is_published = false ∧
    pA2 ∉ index_queryset dbA nowA ∧
    pA2 ∉ category_queryset dbA nowA "tech" :=
  ⟨by decide,
   ((claim_C3_unpublished_excluded dbA nowA "tech" pA2).1 (by decide)).1,
   ((claim_C3_unpublished_excluded dbA nowA "tech" pA2).1 (by decide)).2⟩

/-- C3 counterexample: post 4 of `dbA` satisfies the filter the claim says
the category listing applies (published, published category, dated in the
past of `nowA`) and indeed sits in the index, yet the category page — the
only page, and complete — omits it, because the category listing cuts off
at the previous calendar day. -/
theorem claim_C3_counterexample :
    pA4 ∈ index_queryset dbA nowA ∧
    pA4.is_published = true ∧ categoryPublished dbA "tech" = true ∧
    pA4.category = "tech" ∧ pA4.pub_date ≤ nowA ∧
    pA4 ∉ category_queryset dbA nowA "tech" ∧
    category_posts dbA nowA (some "bob") "tech" .missing =
      .ok ⟨"tech", true⟩ [pA1] 1 ∧
    num_pages (category_queryset dbA nowA "tech").length PAGINATOR_VALUE = 1 := by
  decide

/-- C9 (amended): the index queryset applies the fixed public filter
(published, category published, `pub_date <= now`) with no author
exemption and no dependence on any viewer, so an author's own unpublished
or future-dated post does not appear in the index. -/
theorem claim_C9_index_filter (db : DB) (now : Nat) (p : Post) :
    (p ∈ index_queryset db now ↔
      p ∈ db.posts ∧ p.is_published = true ∧
      categoryPublished db p.category = true ∧ p.pub_date ≤ now) ∧
    (∀ req pg n, list_index db now req = .ok (pg, n) → p ∈ pg →
      p.is_published = true ∧ categoryPublished db p.category = true ∧
      p.pub_date ≤ now) := by
  refine ⟨mem_index_queryset, ?_⟩
  intro req pg n h hp
  exact (mem_index_queryset.mp (list_index_page_subset h p hp)).2

/-- C9 witness: post 1 of `dbA` passes the public filter and is in the
index queryset. -/
theorem claim_C9_witness :
    (pA1 ∈ dbA.posts ∧ pA1.is_published = true ∧
      categoryPublished dbA pA1.category = true ∧ pA1.pub_date ≤ nowA) ∧
    pA1 ∈ index_queryset dbA nowA :=
  ⟨by decide, (claim_C9_index_filter dbA nowA pA1).1.mpr (by decide)⟩

/-- C9 counterexample: alice's own unpublished post 2 appears on no page
of the index (page 1, returned for every valid request, is the only page
and omits it) — the index never exempts the author. -/
theorem claim_C9_counterexample :
    pA2 ∈ dbA.posts ∧ pA2.author = "alice" ∧ pA2.is_published = false ∧
    list_index dbA nowA .missing = .ok ([pA4, pA1], 1) ∧
    num_pages (index_queryset dbA nowA).length PAGINATOR_VALUE = 1 ∧
    pA2 ∉ ([pA4, pA1] : List Post) := by decide

/-- C5 (amended): the profile listing returns all posts authored by the
named user, ordered by publication timestamp descending; for any viewer
other than the owner it applies the filter `published AND
publication_timestamp <= now` — with NO category-published condition — so
the owner's view is a (not necessarily strict) superset of any other
viewer's view. -/
theorem claim_C5_profile (db : DB) (now : Nat) (uname : Username)
    (viewer : Option Username) (p : Post) :
    (p ∈ profile_queryset db now (some uname) uname ↔
      p ∈ db.posts ∧ p.author = uname) ∧
    (viewer ≠ some uname →
      (p ∈ profile_queryset db now viewer uname ↔
        p ∈ db.posts ∧ p.author = uname ∧ p.is_published = true ∧
        p.pub_date ≤ now)) ∧
    (p ∈ profile_queryset db now viewer uname →
      p ∈ profile_queryset db now (some uname) uname) ∧
    (profile_queryset db now viewer uname).Pairwise
      (fun a b => b.pub_date ≤ a.pub_date) := by
  refine ⟨mem_profile_queryset_owner, fun h => mem_profile_queryset_other h,
    ?_, ?_⟩
  · intro hp
    by_cases hv : viewer = some uname
    · rw [hv] at hp; exact hp
    · rcases (mem_profile_queryset_other hv).mp hp with ⟨h1, h2, -, -⟩
      exact mem_profile_queryset_owner.mpr ⟨h1, h2⟩
  · unfold profile_queryset
    split
    · exact pairwise_sortDesc _
    · exact (pairwise_sortDesc _).filter _

/-- C5 witness: non-owner bob's view of alice's profile in `db5`. -/
theorem claim_C5_witness :
    ((some "bob" : Option Username) ≠ some "alice") ∧
    p5 ∈ profile_queryset db5 now5 (some "bob") "alice" :=
  ⟨by decide,
   ((claim_C5_profile db5 now5 "alice" (some "bob") p5).2.1
     (by decide)).mpr (by decide)⟩

/-- C5 counterexample: post `p5` lies in an UNPUBLISHED category yet is
shown to non-owner bob on alice's profile, and bob's view coincides with
alice's own view — refuting both the claimed category-published condition
and the claimed strictness of the superset. -/
theorem claim_C5_counterexample :
    categoryPublished db5 "c" = false ∧ p5.is_published = true ∧
    p5.pub_date ≤ now5 ∧ p5.author = "alice" ∧
    profile_queryset db5 now5 (some "bob") "alice" = [p5] ∧
    profile_queryset db5 now5 (some "alice") "alice" = [p5] := by decide

/-- C4 (amended): page size is 10 everywhere; in the category and profile
listings an integer page below 1 (such as 0) or beyond the last page
yields the LAST valid page (the behaviour of `Paginator.get_page`), while
the index listing fails as not found on such a page (the behaviour of
`ListView.paginate_queryset`). -/
theorem claim_C4_pagination (db : DB) (now : Nat) (v uname : Username)
    (slug : Slug) (k : Int) :
    ((k < 1 ∨ (num_pages (profile_queryset db now (some v) uname).length
        PAGINATOR_VALUE : Int) < k) →
      profile_detail db now (some v) uname (.num k) =
        profile_detail db now (some v) uname
          (.num (num_pages (profile_queryset db now (some v) uname).length
            PAGINATOR_VALUE))) ∧
    ((k < 1 ∨ (num_pages (category_queryset db now slug).length
        PAGINATOR_VALUE : Int) < k) →
      category_posts db now (some v) slug (.num k) =
        category_posts db now (some v) slug
          (.num (num_pages (category_queryset db now slug).length
            PAGINATOR_VALUE))) ∧
    ((k < 1 ∨ (num_pages (index_queryset db now).length
        PAGINATOR_VALUE : Int) < k) →
      list_index db now (.num k) = .error ()) ∧
    (∀ req pg n, profile_detail db now (some v) uname req = .ok pg n →
      pg.length ≤ PAGINATOR_VALUE) ∧
    (∀ req cat pg n, category_posts db now (some v) slug req = .ok cat pg n →
      pg.length ≤ PAGINATOR_VALUE) ∧
    (∀ req pg n, list_index db now req = .ok (pg, n) →
      pg.length ≤ PAGINATOR_VALUE) := by
  refine ⟨?_, ?_, ?_, ?_, ?_, ?_⟩
  · intro h
    unfold profile_detail
    by_cases hu : uname ∈ db.users
    · rw [if_pos hu, if_pos hu]
      dsimp only
      rw [get_page_out_of_range _ h, get_page_last]
    · rw [if_neg hu, if_neg hu]
  · intro h
    rcases hc : db.findCategory slug with _ | c
    · simp only [category_posts, hc]
    · simp only [category_posts, hc]
      by_cases hpub : c.is_published = true
      · simp only [if_pos hpub]
        rw [get_page_out_of_range _ h, get_page_last]
      · simp only [if_neg hpub]
  · intro h
    unfold list_index
    dsimp only
    rw [paginate_queryset_out_of_range _ h]
  · exact fun req pg n h => profile_detail_page_length h
  · exact fun req cat pg n h => category_posts_page_length h
  · exact fun req pg n h => list_index_page_length h

/-- C4 witness: requesting page 0 of alice's 12-post profile yields the
same result as requesting the last page, and page 0 of the index fails. -/
theorem claim_C4_witness :
    ((0 : Int) < 1 ∨ (num_pages (profile_queryset db12 now12 (some "alice")
        "alice").length PAGINATOR_VALUE : Int) < 0) ∧
    profile_detail db12 now12 (some "alice") "alice" (.num 0) =
      profile_detail db12 now12 (some "alice") "alice"
        (.num (num_pages (profile_queryset db12 now12 (some "alice")
          "alice").length PAGINATOR_VALUE)) ∧
    list_index db12 now12 (.num 0) = .error () :=
  ⟨Or.inl (by decide),
   (claim_C4_pagination db12 now12 "alice" "alice" "news" 0).1
     (Or.inl (by decide)),
   (claim_C4_pagination db12 now12 "alice" "alice" "news" 0).2.2.1
     (Or.inl (by decide))⟩

/-- C4 counterexample: with 12 posts, requesting page 0 of alice's profile
returns page 2 — the LAST page, not the first page the claim promises —
and requesting page 0 of the index is a failure, not a clamped page. -/
theorem claim_C4_counterexample :
    profile_detail db12 now12 (some "alice") "alice" (.num 0) =
      .ok [mkP 11, mkP 12] 2 ∧
    num_pages (profile_queryset db12 now12 (some "alice") "alice").length
      PAGINATOR_VALUE = 2 ∧
    (2 : Nat) ≠ 1 ∧
    list_index db12 now12 (.num 0) = .error () := by decide

/-- C6 (amended): with category `news` published and holding exactly 12
published posts dated on past days, page 2 of the category listing for an
AUTHENTICATED viewer returns posts 11 and 12 with page number 2; the
anonymous viewer is rejected with authentication-required because
`category_posts` is `@login_required`. -/
theorem claim_C6_category_scenario :
    category_posts db12 now12 (some "bob") "news" (.num 2) =
      .ok ⟨"news", true⟩ [mkP 11, mkP 12] 2 ∧
    (category_queryset db12 now12 "news").length = 12 ∧
    category_posts db12 now12 none "news" (.num 2) = .authRequired := by decide

/-- C6 counterexample: the anonymous viewer's request for page 2 of the
`news` category is answered with authentication-required, not the page of
posts 11-12 the claim promises. -/
theorem claim_C6_counterexample :
    category_posts db12 now12 none "news" (.num 2) = .authRequired ∧
    category_posts db12 now12 none "news" (.num 2) ≠
      .ok ⟨"news", true⟩ [mkP 11, mkP 12] 2 := by decide

/-- C7 (amended): creating a post or a comment requires an authenticated
identity and forces the created entity's author to the acting identity
(the bound form's author field never takes effect); on success
`create_comment` redirects to the parent post's detail view, but
`create_post` redirects to the acting user's PROFILE listing. -/
theorem claim_C7_create (db : DB) (u : Username) (f : PostFields)
    (pid : PostId) (cf : CommentFields) :
    (create_post db none f = (db, .authRequired)) ∧
    (create_post db (some u) f =
      ({ db with posts := db.posts ++
          [⟨freshPostId db, u, f.category, f.pub_date, f.is_published,
            f.title, f.text⟩] },
       .redirect (.profile u))) ∧
    ((db.findPost pid).isSome →
      create_comment db (some u) pid cf =
        ({ db with comments :=
            db.comments ++ [⟨freshCommentId db, pid, u, cf.text⟩] },
         .redirect (.postDetail pid))) ∧
    ((db.findPost pid).isSome →
      create_comment db none pid cf = (db, .authRequired)) := by
  refine ⟨rfl, rfl, ?_, ?_⟩
  · intro h
    rcases hp : db.findPost pid with _ | p
    · rw [hp] at h; simp at h
    · simp [create_comment, hp]
  · intro h
    rcases hp : db.findPost pid with _ | p
    · rw [hp] at h; simp at h
    · simp [create_comment, hp]

/-- C7 witness: alice creates a post and a comment with a bound form whose
author field says `mallory`; both created entities carry author `alice`. -/
theorem claim_C7_witness :
    (dbA.findPost 1).isSome ∧ fA.author = "mallory" ∧ cfA.author = "mallory" ∧
    create_post dbA (some "alice") fA =
      ({ dbA with posts := dbA.posts ++
          [⟨freshPostId dbA, "alice", fA.category, fA.pub_date,
            fA.is_published, fA.title, fA.text⟩] },
       .redirect (.profile "alice")) ∧
    create_comment dbA (some "alice") 1 cfA =
      ({ dbA with comments :=
          dbA.comments ++ [⟨freshCommentId dbA, 1, "alice", cfA.text⟩] },
       .redirect (.postDetail 1)) :=
  ⟨by decide, by decide, by decide,
   (claim_C7_create dbA "alice" fA 1 cfA).2.1,
   (claim_C7_create dbA "alice" fA 1 cfA).2.2.1 (by decide)⟩

/-- C7 counterexample: a successful `create_post` redirects to the acting
user's profile listing, not to the created post's detail view. -/
theorem claim_C7_counterexample :
    (create_post dbA (some "alice") fA).2 =
      Response.redirect (.profile "alice") ∧
    (create_post dbA (some "alice") fA).2 ≠
      Response.redirect (.postDetail (freshPostId dbA)) := by decide

/-- C8 (amended): a delete by the post's author removes the post and
redirects to the global INDEX listing (`success_url =
reverse_lazy('blog:index')`), not to the author's profile. -/
theorem claim_C8_delete_by_author (db : DB) (pid : PostId) (p : Post)
    (hp : db.findPost pid = some p) :
    delete_post db (some p.author) pid =
      ({ db with posts := db.posts.filter (fun q => q.id ≠ pid) },
       .redirect .index) := by
  simp [delete_post, hp]

/-- C8 witness: alice deletes her post 1; it is removed and the response
redirects to the index. -/
theorem claim_C8_witness :
    dbA.findPost 1 = some pA1 ∧
    delete_post dbA (some pA1.author) 1 =
      ({ dbA with posts := dbA.posts.filter (fun q => q.id ≠ 1) },
       .redirect .index) :=
  ⟨by decide, claim_C8_delete_by_author dbA 1 pA1 (by decide)⟩

/-- C8 counterexample: alice's successful delete of post 1 redirects to
the index, not to her profile listing as the claim promises. -/
theorem claim_C8_counterexample :
    (delete_post dbA (some "alice") 1).2 = Response.redirect .index ∧
    (delete_post dbA (some "alice") 1).2 ≠
      Response.redirect (.profile "alice") ∧
    dbA.findPost 1 = some pA1 ∧ pA1.author = "alice" := by decide

/-- C10 witness: post 2 of `dbA` is invisible to bob (unpublished), yet
bob's comment on it succeeds and is attached to post 2. -/
theorem claim_C10_witness :
    (dbA.findPost 2).isSome ∧
    get_post_detail dbA nowA (some "bob") 2 = .notFound ∧
    create_comment dbA (some "bob") 2 cfA =
      ({ dbA with comments :=
          dbA.comments ++ [⟨freshCommentId dbA, 2, "bob", cfA.text⟩] },
       .redirect (.postDetail 2)) :=
  ⟨by decide, by decide,
   (claim_C10_comment_ignores_visibility dbA "bob" 2 cfA).1 (by decide)⟩

end Blogicum
